import Mathlib

/-!
Verification development for the reward composition engine in
`rl_utils/utils/rewards/reward_function.py` (class `RewardFunction`).

The Python code is shallowly embedded: floats become rationals, Python
dictionaries become insertion-ordered association lists, and fallible
operations return `Except PyErr _` together with the state at the moment
an exception propagates.  Numpy-array truthiness (`not laser_scan`) is
embedded faithfully: `None` and empty arrays are falsy, a one-element
array has the truthiness of its element, and a multi-element array
raises the ambiguous-truth-value `ValueError`.

Parts of the repository that the class imports but that are not part of
the sources under study (`constants.REWARD_CONSTANTS`, the distance
helpers in `rewards/utils.py`, and the reward-unit classes/factory) are
modelled from the specification and carry a doc comment saying so.
-/

/-- Python runtime values stored in the info dictionary and in the shared
scratch state (`_internal_state_info`). -/
inductive Value where
  | none : Value
  | bool : Bool → Value
  | rat : ℚ → Value
  | str : String → Value
deriving DecidableEq

/-- Python truthiness of a stored value (`bool(v)`). -/
def Value.truthy : Value → Bool
  | Value.none => false
  | Value.bool b => b
  | Value.rat q => decide (q ≠ 0)
  | Value.str s => decide (s ≠ "")

/-- A Python dictionary: an insertion-ordered association list with
string keys. -/
abbrev Dict := List (String × Value)

/-- Lookup of a key (`d[k]` when it succeeds): first matching entry. -/
def Dict.get? : Dict → String → Option Value
  | [], _ => Option.none
  | (a, v) :: t, k => if k = a then some v else Dict.get? t k

/-- Assignment `d[k] = v`: an existing key keeps its position, a new key
is appended at the end (Python dict insertion order). -/
def Dict.setOne : Dict → String → Value → Dict
  | [], k, v => [(k, v)]
  | (a, w) :: t, k, v => if k = a then (a, v) :: t else (a, w) :: Dict.setOne t k v

/-- `d.update(e)`: set every entry of `e` into `d`, in order. -/
def Dict.updateAll (d e : Dict) : Dict :=
  e.foldl (fun acc kv => Dict.setOne acc kv.1 kv.2) d

/-- Exceptions the embedded code can raise. -/
inductive PyErr where
  /-- `KeyError` from a failed dictionary subscript. -/
  | keyError : String → PyErr
  /-- `AttributeError` from reading a never-assigned attribute. -/
  | attributeError : String → PyErr
  /-- `ValueError("Neither LaserScan nor PointCloud data was provided!")`. -/
  | missingInputError : PyErr
  /-- numpy `ValueError`: truth value of a multi-element array is ambiguous. -/
  | ambiguousTruthError : PyErr
  /-- `ValueError("Goal radius smaller than ...")` from the goal-radius setter. -/
  | goalRadiusError : PyErr
  /-- numpy `ValueError`: minimum of an empty / absent array. -/
  | emptyMinError : PyErr
  /-- `TypeError`: unsupported operand types (e.g. `None <= float`). -/
  | badOperandError : PyErr
  /-- `TypeError`: a call is missing a required positional argument. -/
  | missingArgumentError : String → String → PyErr
  /-- Unknown unit identifier in the registry (`RewardUnitFactory`). -/
  | unknownUnitError : String → PyErr
  /-- Invalid unit parameters rejected by a unit constructor. -/
  | configError : String → PyErr
deriving DecidableEq

/-- numpy truthiness of an optional float array: `None` and the empty
array are falsy, a singleton has the truthiness of its element, and a
multi-element array raises the ambiguity `ValueError`. -/
def npTruthy : Option (List ℚ) → Except PyErr Bool
  | Option.none => Except.ok false
  | some [] => Except.ok false
  | some [q] => Except.ok (decide (q ≠ 0))
  | some (_ :: _ :: _) => Except.error PyErr.ambiguousTruthError

/-- Whether an optional array is Python-falsy: absent, empty, or a lone
zero element.  This is exactly `npTruthy` succeeding with `false`. -/
def pyFalsy : Option (List ℚ) → Bool
  | Option.none => true
  | some [] => true
  | some [q] => decide (q = 0)
  | some (_ :: _ :: _) => false

/-- `laser_scan.min()`: raises on `None` (`AttributeError`) and on an
empty array (`ValueError`), otherwise the minimum element. -/
def np_min : Option (List ℚ) → Except PyErr ℚ
  | Option.none => Except.error (PyErr.attributeError "min")
  | some [] => Except.error PyErr.emptyMinError
  | some (q :: t) => Except.ok (t.foldl min q)

/-- Modelled from the spec: `min_distance_from_pointcloud` lives in
`rl_utils/utils/rewards/utils.py`, which is not among the sources under
study.  The spec describes the distance utilities as pure functions that
"derive the minimum distance from the point cloud"; a cloud point is a
structured record carrying its range, and the function takes the minimum
of those ranges (raising on an absent or empty cloud, as numpy would). -/
def min_distance_from_pointcloud : Option (List ℚ) → Except PyErr ℚ
  | Option.none => Except.error PyErr.badOperandError
  | some [] => Except.error PyErr.emptyMinError
  | some (q :: t) => Except.ok (t.foldl min q)

/-- Python comparison `v <= q` where `v` is a stored scratch value and
`q` a float: numbers and booleans compare numerically, `None` and
strings raise `TypeError`. -/
def value_le (v : Value) (q : ℚ) : Except PyErr Bool :=
  match v with
  | Value.rat a => Except.ok (decide (a ≤ q))
  | Value.bool b => Except.ok (decide ((if b then (1 : ℚ) else 0) ≤ q))
  | Value.none => Except.error PyErr.badOperandError
  | Value.str _ => Except.error PyErr.badOperandError

/-- One `add_reward` / `add_info` / `add_internal_state_info` call made by
a reward unit while it is evaluated.  The spec (§9) prescribes modelling
the unit's back-reference to its owning reward function as this narrow
mutation interface. -/
inductive Effect where
  | addReward : ℚ → Effect
  | addInfo : Dict → Effect
  | addState : String → Value → Effect

/-- Modelled from the spec: the reward-unit classes are not among the
sources under study.  Per spec §3/§4.1 a unit carries its identifier and
constructor parameters, the `on_safe_dist_violation` capability flag, a
per-episode internal state with a reset transformer, and an evaluate
contract that reads the laser scan, the step context and the owner's
shared scratch state, and publishes through `add_reward`/`add_info`/
`add_internal_state_info` only. -/
structure RewardUnit where
  name : String
  params : Dict
  on_safe_dist_violation : Bool
  eval : Option (List ℚ) → Dict → Dict → List Effect
  ep_state : Value
  on_reset : Value → Value

/-- The `RewardFunction` object state.  Field names mirror the Python
attributes without the leading underscore.  `safe_dist_breached_attr`
models the attribute `_safe_dist_breached` read by the property
`safe_dist_breached`; no method of the class ever assigns it, so the
constructor leaves it `none` (attribute absent) and it stays absent in
every reachable state. -/
structure RewardFunction where
  robot_radius : ℚ
  safe_dist : ℚ
  goal_radius : ℚ
  internal_state_info : Dict
  curr_reward : ℚ
  info : Dict
  reward_units : List RewardUnit
  safe_dist_breached_attr : Option Bool

/-- Modelled from the spec: `REWARD_CONSTANTS.MIN_GOAL_RADIUS` comes from
`rewards/constants.py`, which is not among the sources under study.  The
spec only requires a positive minimum constant for the goal radius; it is
fixed here to `1/10`.  The claims about the setter are stated relative to
the constant, so their truth does not depend on the chosen value. -/
def MIN_GOAL_RADIUS : ℚ := mkRat 1 10

/-- `add_reward`: add a value to the accumulated step reward. -/
def RewardFunction.add_reward (rf : RewardFunction) (v : ℚ) : RewardFunction :=
  { rf with curr_reward := rf.curr_reward + v }

/-- `add_info`: `self._info.update(info)`. -/
def RewardFunction.add_info (rf : RewardFunction) (d : Dict) : RewardFunction :=
  { rf with info := Dict.updateAll rf.info d }

/-- `add_internal_state_info`: `self._internal_state_info[key] = value`. -/
def RewardFunction.add_internal_state_info (rf : RewardFunction) (k : String) (v : Value) :
    RewardFunction :=
  { rf with internal_state_info := Dict.setOne rf.internal_state_info k v }

/-- `get_internal_state_info`: subscripting raises `KeyError` on an
absent key; a present value is returned when truthy, otherwise the
supplied default is returned instead (the `if self._internal_state_info[key]:`
truthiness test in the source). -/
def RewardFunction.get_internal_state_info (rf : RewardFunction) (k : String)
    (default : Value) : Except PyErr Value :=
  match Dict.get? rf.internal_state_info k with
  | Option.none => Except.error (PyErr.keyError k)
  | some v => if v.truthy then Except.ok v else Except.ok default

/-- `reset_internal_state_info`: every existing scratch key is set to
`None`; no key is removed. -/
def RewardFunction.reset_internal_state_info (rf : RewardFunction) : RewardFunction :=
  { rf with internal_state_info :=
      rf.internal_state_info.map (fun kv => (kv.1, Value.none)) }

/-- `_reset`, the per-step reset: zero the accumulated reward, empty the
info dictionary, null out the scratch state. -/
def RewardFunction.reset_step (rf : RewardFunction) : RewardFunction :=
  { rf.reset_internal_state_info with curr_reward := 0, info := [] }

/-- The goal-radius property setter: values below `MIN_GOAL_RADIUS`
raise `ValueError` (state unchanged), others are stored. -/
def RewardFunction.set_goal_radius (rf : RewardFunction) (v : ℚ) :
    Except PyErr Unit × RewardFunction :=
  if v < MIN_GOAL_RADIUS then (Except.error PyErr.goalRadiusError, rf)
  else (Except.ok (), { rf with goal_radius := v })

/-- The episode-level `reset`: re-read the global goal radius (the ROS
parameter `/goal_radius`, default `0.3`, passed in here as an optional
input), store it through the validating setter, then call `reset()` on
every unit in list order.  The returned index list records, in order,
the units whose reset ran. -/
def RewardFunction.reset (rf : RewardFunction) (goal_radius_param : Option ℚ) :
    Except PyErr Unit × RewardFunction × List Nat :=
  let v := goal_radius_param.getD (mkRat 3 10)
  match rf.set_goal_radius v with
  | (Except.error e, rf1) => (Except.error e, rf1, [])
  | (Except.ok _, rf1) =>
    (Except.ok (),
     { rf1 with reward_units :=
         rf1.reward_units.map (fun u => { u with ep_state := u.on_reset u.ep_state }) },
     List.range rf1.reward_units.length)

/-- The guard `not laser_scan and not point_cloud` at the top of
`set_min_dist_laser`, with Python short-circuiting: the truthiness of
`point_cloud` is only evaluated when `laser_scan` is falsy.  `ok true`
means the missing-input branch fires. -/
def missing_input_check (laser_scan point_cloud : Option (List ℚ)) : Except PyErr Bool := do
  let tl ← npTruthy laser_scan
  if tl then pure false
  else do
    let tpc ← npTruthy point_cloud
    pure (!tpc)

/-- The publishing half of `set_min_dist_laser`, after the guard: store
`laser_scan.min()` under `min_dist_laser` when `from_aggregate_obs` is
false, else store `min_distance_from_pointcloud(point_cloud)`. -/
def RewardFunction.publish_min_dist (rf : RewardFunction)
    (laser_scan point_cloud : Option (List ℚ)) (from_aggregate_obs : Bool) :
    Except PyErr Unit × RewardFunction :=
  if !from_aggregate_obs then
    match np_min laser_scan with
    | Except.error e => (Except.error e, rf)
    | Except.ok m => (Except.ok (), rf.add_internal_state_info "min_dist_laser" (Value.rat m))
  else
    match min_distance_from_pointcloud point_cloud with
    | Except.error e => (Except.error e, rf)
    | Except.ok m => (Except.ok (), rf.add_internal_state_info "min_dist_laser" (Value.rat m))

/-- `set_min_dist_laser`: raise the missing-input `ValueError` when both
inputs are falsy, otherwise publish the minimum distance of the selected
source. -/
def RewardFunction.set_min_dist_laser (rf : RewardFunction)
    (laser_scan point_cloud : Option (List ℚ)) (from_aggregate_obs : Bool) :
    Except PyErr Unit × RewardFunction :=
  match missing_input_check laser_scan point_cloud with
  | Except.error e => (Except.error e, rf)
  | Except.ok true => (Except.error PyErr.missingInputError, rf)
  | Except.ok false => rf.publish_min_dist laser_scan point_cloud from_aggregate_obs

/-- `set_safe_dist_breached`: read `min_dist_laser` through
`get_internal_state_info` (default `None`), compare with `<=` against the
safe distance, and publish the result under `safe_dist_breached`. -/
def RewardFunction.set_safe_dist_breached (rf : RewardFunction) :
    Except PyErr Unit × RewardFunction :=
  match rf.get_internal_state_info "min_dist_laser" Value.none with
  | Except.error e => (Except.error e, rf)
  | Except.ok v =>
    match value_le v rf.safe_dist with
    | Except.error e => (Except.error e, rf)
    | Except.ok b =>
      (Except.ok (), rf.add_internal_state_info "safe_dist_breached" (Value.bool b))

/-- `update_internal_state_info`: `set_min_dist_laser` followed by
`set_safe_dist_breached`. -/
def RewardFunction.update_internal_state_info (rf : RewardFunction)
    (laser_scan point_cloud : Option (List ℚ)) (from_aggregate_obs : Bool) :
    Except PyErr Unit × RewardFunction :=
  match rf.set_min_dist_laser laser_scan point_cloud from_aggregate_obs with
  | (Except.error e, rf1) => (Except.error e, rf1)
  | (Except.ok _, rf1) => rf1.set_safe_dist_breached

/-- The property `safe_dist_breached`: returns `self._safe_dist_breached`,
raising `AttributeError` when the attribute was never assigned (which, in
this class, is always the case — no method sets it). -/
def RewardFunction.safe_dist_breached_prop (rf : RewardFunction) : Except PyErr Bool :=
  match rf.safe_dist_breached_attr with
  | some b => Except.ok b
  | Option.none => Except.error (PyErr.attributeError "_safe_dist_breached")

/-- Apply one published effect of a unit to the owner. -/
def RewardFunction.apply_effect (rf : RewardFunction) : Effect → RewardFunction
  | Effect.addReward v => rf.add_reward v
  | Effect.addInfo d => rf.add_info d
  | Effect.addState k v => rf.add_internal_state_info k v

/-- Apply a unit's published effects in order. -/
def RewardFunction.apply_effects (rf : RewardFunction) (es : List Effect) : RewardFunction :=
  es.foldl RewardFunction.apply_effect rf

/-- The loop body of `calculate_reward` over the indexed unit list.  Each
iteration first evaluates the property `self.safe_dist_breached`; on
success the unit is skipped iff the flag is set and the unit is not
breach-exempt, otherwise the unit is invoked with the laser scan, the
step context and the current scratch state, and its effects are applied.
The returned list records the indices of the invoked units, in order. -/
def RewardFunction.calc_go : RewardFunction → Option (List ℚ) → Dict →
    List (Nat × RewardUnit) → List Nat → Except PyErr Unit × RewardFunction × List Nat
  | rf, _, _, [], trace => (Except.ok (), rf, trace.reverse)
  | rf, laser_scan, ctx, (i, u) :: rest, trace =>
    match rf.safe_dist_breached_prop with
    | Except.error e => (Except.error e, rf, trace.reverse)
    | Except.ok b =>
      if b && !u.on_safe_dist_violation then
        RewardFunction.calc_go rf laser_scan ctx rest trace
      else
        RewardFunction.calc_go
          (rf.apply_effects (u.eval laser_scan ctx rf.internal_state_info))
          laser_scan ctx rest (i :: trace)

/-- `calculate_reward(laser_scan, **kwargs)`: iterate the fixed unit list
in order. -/
def RewardFunction.calculate_reward (rf : RewardFunction)
    (laser_scan : Option (List ℚ)) (ctx : Dict) :
    Except PyErr Unit × RewardFunction × List Nat :=
  RewardFunction.calc_go rf laser_scan ctx rf.reward_units.enum []

/-- `get_reward`: per-step reset, then the scratch-state refresh, then the
call `self.calculate_reward(**kwargs)`.  Python keyword binding means
`laser_scan` is always consumed by `get_reward`'s own parameter and can
never be a member of `kwargs`, so that call is missing its required
positional argument `laser_scan` and raises `TypeError` before the body
of `calculate_reward` runs; the `return self._curr_reward, self._info`
line is unreachable.  The pair returned here is the raised exception (or
the would-be result) together with the object state at that moment. -/
def RewardFunction.get_reward (rf : RewardFunction)
    (laser_scan point_cloud : Option (List ℚ)) (from_aggregate_obs : Bool) (ctx : Dict) :
    Except PyErr (ℚ × Dict) × RewardFunction :=
  match (rf.reset_step).update_internal_state_info laser_scan point_cloud from_aggregate_obs with
  | (Except.error e, rf2) => (Except.error e, rf2)
  | (Except.ok _, rf2) =>
    (Except.error (PyErr.missingArgumentError "calculate_reward" "laser_scan"), rf2)

/-- Modelled from the spec: the process-wide reward-unit registry
(`RewardUnitFactory`, not among the sources under study) maps textual
identifiers to unit constructors and fails loudly on unknown
identifiers. -/
abbrev Registry := List (String × (Dict → Except PyErr RewardUnit))

/-- `RewardUnitFactory.instantiate`: registry lookup, raising the
unknown-unit error on an absent identifier. -/
def RewardUnitFactory.instantiate (registry : Registry) (nm : String) :
    Except PyErr (Dict → Except PyErr RewardUnit) :=
  match registry.find? (fun p => p.1 = nm) with
  | Option.none => Except.error (PyErr.unknownUnitError nm)
  | some p => Except.ok p.2

/-- `_setup_reward_function`: one unit per specification entry, resolved
through the registry and constructed with its declared parameters (plus,
per spec §9, the back-reference realised as the effect interface),
evaluated in specification order with errors propagating. -/
def setup_reward_function (registry : Registry) :
    List (String × Dict) → Except PyErr (List RewardUnit)
  | [] => Except.ok []
  | (nm, kw) :: rest => do
    let f ← RewardUnitFactory.instantiate registry nm
    let u ← f kw
    let us ← setup_reward_function registry rest
    pure (u :: us)

/-- `__init__`: store the radii, start with an empty scratch state, zero
reward and empty info, and build the unit list from the already-parsed
unit specification (the yaml loading of `load_rew_fnc` is external
configuration delivery per spec §6).  The `_safe_dist_breached` attribute
is never assigned, hence absent. -/
def RewardFunction.init (registry : Registry) (spec_list : List (String × Dict))
    (robot_radius goal_radius safe_dist : ℚ) : Except PyErr RewardFunction := do
  let us ← setup_reward_function registry spec_list
  pure
    { robot_radius := robot_radius
      safe_dist := safe_dist
      goal_radius := goal_radius
      internal_state_info := []
      curr_reward := 0
      info := []
      reward_units := us
      safe_dist_breached_attr := Option.none }

/-- Modelled from the spec (§8 end-to-end example): the `goal_distance`
unit is constructed with a `weight` parameter (rejecting a missing or
non-numeric weight at construction), is not breach-exempt
(`on_safe_dist_violation = false`), and contributes
`weight * distance_to_goal` read from the step context. -/
def goal_distance_factory : Dict → Except PyErr RewardUnit := fun params =>
  match Dict.get? params "weight" with
  | some (Value.rat w) =>
    Except.ok
      { name := "goal_distance"
        params := params
        on_safe_dist_violation := false
        eval := fun _ ctx _ =>
          match Dict.get? ctx "distance_to_goal" with
          | some (Value.rat d) => [Effect.addReward (w * d)]
          | _ => []
        ep_state := Value.none
        on_reset := id }
  | _ => Except.error (PyErr.configError "goal_distance")

/-- Modelled from the spec (§8 end-to-end example): the `safe_distance`
unit is breach-exempt (`on_safe_dist_violation = true`) and contributes
`-5` when the shared scratch state says the safe distance is breached. -/
def safe_distance_factory : Dict → Except PyErr RewardUnit := fun params =>
  Except.ok
    { name := "safe_distance"
      params := params
      on_safe_dist_violation := true
      eval := fun _ _ scratch =>
        if Dict.get? scratch "safe_dist_breached" = some (Value.bool true) then
          [Effect.addReward (-5)]
        else []
      ep_state := Value.none
      on_reset := id }

/-- Example registry holding the two units of the spec example. -/
def registryEx : Registry :=
  [("goal_distance", goal_distance_factory), ("safe_distance", safe_distance_factory)]

/-- The unit specification of the spec example:
`{"goal_distance": {"weight": -0.1}, "safe_distance": {}}`. -/
def specEx : List (String × Dict) :=
  [("goal_distance", [("weight", Value.rat (mkRat (-1) 10))]), ("safe_distance", [])]

/-- A reward function with no units, safe distance `0.3`, empty scratch
state, as produced by construction. -/
def rfScratchEx : RewardFunction :=
  { robot_radius := 1
    safe_dist := mkRat 3 10
    goal_radius := mkRat 3 10
    internal_state_info := []
    curr_reward := 0
    info := []
    reward_units := []
    safe_dist_breached_attr := Option.none }

/-- A unit that is not breach-exempt and would add reward `1` whenever it
is invoked. -/
def dummy_unit : RewardUnit :=
  { name := "dummy"
    params := []
    on_safe_dist_violation := false
    eval := fun _ _ _ => [Effect.addReward 1]
    ep_state := Value.none
    on_reset := fun _ => Value.rat 0 }

/-- A reward function holding one unit, with the scratch state of a step
in which the refresh published a minimum distance of `0.5` and a breach
flag of `False` — the situation in which the claim says the unit must be
invoked. -/
def rfOneUnit : RewardFunction :=
  { rfScratchEx with
      reward_units := [dummy_unit]
      internal_state_info :=
        [("min_dist_laser", Value.rat (mkRat 1 2)), ("safe_dist_breached", Value.bool false)] }


/-! ## Dictionary lemmas -/

theorem Dict.get?_setOne (d : Dict) (k k' : String) (v : Value) :
    Dict.get? (Dict.setOne d k v) k' = if k' = k then some v else Dict.get? d k' := by
  induction d with
  | nil => simp [Dict.setOne, Dict.get?]
  | cons hd t ih =>
    obtain ⟨a, w⟩ := hd
    by_cases hka : k = a
    · subst hka
      by_cases hk' : k' = k <;> simp [Dict.setOne, Dict.get?, hk']
    · by_cases hk' : k' = a
      · subst hk'
        have : ¬ k' = k := fun h => hka (h ▸ rfl)
        simp [Dict.setOne, Dict.get?, hka, this]
      · simp [Dict.setOne, Dict.get?, hka, hk', ih]

theorem Dict.mem_keys_of_get? (d : Dict) (k : String) (v : Value)
    (h : Dict.get? d k = some v) : k ∈ d.map Prod.fst := by
  induction d with
  | nil => simp [Dict.get?] at h
  | cons hd t ih =>
    obtain ⟨a, w⟩ := hd
    by_cases hk : k = a
    · subst hk; simp
    · simp [Dict.get?, hk] at h
      simp [ih h]

theorem Dict.get?_updateAll (d e : Dict) (k : String)
    (he : (e.map Prod.fst).Nodup) :
    Dict.get? (Dict.updateAll d e) k =
      match Dict.get? e k with
      | some v => some v
      | Option.none => Dict.get? d k := by
  induction e generalizing d with
  | nil => simp [Dict.updateAll, Dict.get?]
  | cons hd t ih =>
    obtain ⟨a, b⟩ := hd
    simp only [List.map_cons, List.nodup_cons] at he
    obtain ⟨ha, ht⟩ := he
    have hstep : Dict.updateAll d ((a, b) :: t) = Dict.updateAll (Dict.setOne d a b) t := rfl
    rw [hstep, ih _ ht]
    by_cases hk : k = a
    · subst hk
      have hnone : Dict.get? t k = Option.none := by
        cases hg : Dict.get? t k with
        | none => rfl
        | some v => exact absurd (Dict.mem_keys_of_get? t k v hg) ha
      simp [hnone, Dict.get?, Dict.get?_setOne]
    · cases hg : Dict.get? t k <;> simp [Dict.get?, Dict.get?_setOne, hk, hg]

/-! ## Characterization of the missing-input guard -/

theorem missing_input_check_ok_true_iff (l p : Option (List ℚ)) :
    missing_input_check l p = Except.ok true ↔ pyFalsy l = true ∧ pyFalsy p = true := by
  rcases l with _ | ⟨_ | ⟨q, _ | ⟨q2, t⟩⟩⟩ <;>
    rcases p with _ | ⟨_ | ⟨r, _ | ⟨r2, s⟩⟩⟩ <;>
    simp [missing_input_check, npTruthy, pyFalsy, Bind.bind, Except.bind, Pure.pure,
      Except.pure] <;>
    first
      | (by_cases hq : q = 0 <;> by_cases hr : r = 0 <;>
          simp [hq, hr, Bind.bind, Except.bind, Pure.pure, Except.pure])
      | (by_cases hq : q = 0 <;>
          simp [hq, Bind.bind, Except.bind, Pure.pure, Except.pure])
      | (by_cases hr : r = 0 <;>
          simp [hr, Bind.bind, Except.bind, Pure.pure, Except.pure])

theorem missing_input_check_error_eq (l p : Option (List ℚ)) (e : PyErr)
    (h : missing_input_check l p = Except.error e) : e = PyErr.ambiguousTruthError := by
  rcases l with _ | ⟨_ | ⟨q, _ | ⟨q2, t⟩⟩⟩ <;>
    rcases p with _ | ⟨_ | ⟨r, _ | ⟨r2, s⟩⟩⟩ <;>
    revert h <;>
    simp [missing_input_check, npTruthy, Bind.bind, Except.bind, Pure.pure, Except.pure] <;>
    first
      | (intro h; exact h.symm)
      | (by_cases hq : q = 0 <;> by_cases hr : r = 0 <;>
          simp [hq, hr] <;> (intro h; exact h.symm))
      | (by_cases hq : q = 0 <;> simp [hq] <;> (intro h; exact h.symm))
      | (by_cases hr : r = 0 <;> simp [hr] <;> (intro h; exact h.symm))

theorem publish_min_dist_ne_missing (rf : RewardFunction)
    (l p : Option (List ℚ)) (fa : Bool) :
    (rf.publish_min_dist l p fa).1 ≠ Except.error PyErr.missingInputError := by
  rcases l with _ | ⟨_ | ⟨q, t⟩⟩ <;> rcases p with _ | ⟨_ | ⟨r, s⟩⟩ <;> cases fa <;>
    simp [RewardFunction.publish_min_dist, np_min, min_distance_from_pointcloud]

theorem set_safe_dist_breached_ne_missing (rf : RewardFunction) :
    (rf.set_safe_dist_breached).1 ≠ Except.error PyErr.missingInputError := by
  unfold RewardFunction.set_safe_dist_breached RewardFunction.get_internal_state_info
  cases hg : Dict.get? rf.internal_state_info "min_dist_laser" with
  | none => simp
  | some v =>
    by_cases ht : v.truthy <;>
      rcases v with _ | b | q | s <;>
      simp_all [Value.truthy, value_le]

theorem update_missing_iff (rf : RewardFunction)
    (l p : Option (List ℚ)) (fa : Bool) :
    (rf.update_internal_state_info l p fa).1 = Except.error PyErr.missingInputError ↔
      missing_input_check l p = Except.ok true := by
  unfold RewardFunction.update_internal_state_info RewardFunction.set_min_dist_laser
  cases hmc : missing_input_check l p with
  | error e =>
    have he := missing_input_check_error_eq l p e hmc
    subst he
    simp
  | ok b =>
    cases b with
    | true => simp
    | false =>
      simp only
      cases hp : rf.publish_min_dist l p fa with
      | mk r rf1 =>
        cases r with
        | error e =>
          have := publish_min_dist_ne_missing rf l p fa
          rw [hp] at this
          simp_all
        | ok u =>
          simp only
          have := set_safe_dist_breached_ne_missing rf1
          constructor
          · intro hcontra; exact absurd hcontra this
          · intro hcontra; cases hcontra

theorem update_missing_state (rf : RewardFunction)
    (l p : Option (List ℚ)) (fa : Bool)
    (h : (rf.update_internal_state_info l p fa).1 = Except.error PyErr.missingInputError) :
    (rf.update_internal_state_info l p fa).2 = rf := by
  have hmc : missing_input_check l p = Except.ok true :=
    (update_missing_iff rf l p fa).mp h
  unfold RewardFunction.update_internal_state_info RewardFunction.set_min_dist_laser
  rw [hmc]

theorem get_reward_fst (rf : RewardFunction) (l p : Option (List ℚ)) (fa : Bool)
    (ctx : Dict) :
    (rf.get_reward l p fa ctx).1 =
      match ((rf.reset_step).update_internal_state_info l p fa).1 with
      | Except.error e => Except.error e
      | Except.ok _ =>
        Except.error (PyErr.missingArgumentError "calculate_reward" "laser_scan") := by
  unfold RewardFunction.get_reward
  rcases h : (rf.reset_step).update_internal_state_info l p fa with ⟨r, rf2⟩
  cases r <;> simp

theorem get_reward_snd (rf : RewardFunction) (l p : Option (List ℚ)) (fa : Bool)
    (ctx : Dict) :
    (rf.get_reward l p fa ctx).2 = ((rf.reset_step).update_internal_state_info l p fa).2 := by
  unfold RewardFunction.get_reward
  rcases h : (rf.reset_step).update_internal_state_info l p fa with ⟨r, rf2⟩
  cases r <;> simp

/-! ## Claim theorems -/

/-- C1: the claim says that in every evaluation step a unit is skipped iff
the shared breach flag is set and the unit is not breach-exempt, and that
every non-skipped unit is invoked exactly once.  On the code this fails:
`calculate_reward` reads the property `safe_dist_breached`, which returns
the attribute `_safe_dist_breached` that no method ever assigns, so with
at least one configured unit the loop raises `AttributeError` on its
first iteration — here in a state whose scratch flag is `False`, where
the claim requires the unit to be invoked; no unit is invoked (empty
invocation trace) and no reward is accumulated. -/
theorem c1_calculate_reward_attribute_error :
    (rfOneUnit.calculate_reward (some [mkRat 1 2]) []).1 =
        Except.error (PyErr.attributeError "_safe_dist_breached") ∧
      (rfOneUnit.calculate_reward (some [mkRat 1 2]) []).2.2 = [] ∧
      (rfOneUnit.calculate_reward (some [mkRat 1 2]) []).2.1.curr_reward = 0 ∧
      rfOneUnit.safe_dist_breached_attr = Option.none :=
  ⟨rfl, rfl, rfl, rfl⟩

/-- C2 (counterexample): the claim says the missing-input error is raised
iff neither a laser array nor a point cloud is supplied.  Here a laser
array IS supplied — the empty array, which the spec explicitly allows
("laser-range array … may be empty") — with no point cloud, and the
`not laser_scan and not point_cloud` of the code still raises the
missing-input `ValueError` because the empty numpy array is falsy. -/
theorem c2_counterexample_empty_array_supplied :
    (rfScratchEx.get_reward (some []) Option.none false []).1 =
        Except.error PyErr.missingInputError ∧
      (some ([] : List ℚ)).isSome = true :=
  ⟨rfl, rfl⟩

/-- C2 (amended): `get_reward` raises the missing-input error iff both
the laser argument and the point-cloud argument are Python-falsy (absent,
empty, or a single element equal to zero); whenever the missing-input
error is raised, the accumulated reward equals its reset value `0` at the
time of the raise. -/
theorem c2_missing_input_iff_both_falsy (rf : RewardFunction) (l p : Option (List ℚ))
    (fa : Bool) (ctx : Dict) :
    ((rf.get_reward l p fa ctx).1 = Except.error PyErr.missingInputError ↔
      pyFalsy l = true ∧ pyFalsy p = true) ∧
    ((rf.get_reward l p fa ctx).1 = Except.error PyErr.missingInputError →
      (rf.get_reward l p fa ctx).2.curr_reward = 0) := by
  constructor
  · rw [get_reward_fst]
    cases hr : ((rf.reset_step).update_internal_state_info l p fa).1 with
    | error e =>
      simp only
      constructor
      · intro h
        have he : e = PyErr.missingInputError := by
          injection h
        subst he
        exact (missing_input_check_ok_true_iff l p).mp
          ((update_missing_iff (rf.reset_step) l p fa).mp hr)
      · intro hfp
        have h2 := (update_missing_iff (rf.reset_step) l p fa).mpr
          ((missing_input_check_ok_true_iff l p).mpr hfp)
        rw [hr] at h2
        have he : e = PyErr.missingInputError := by injection h2
        rw [he]
    | ok u =>
      simp only
      constructor
      · intro h
        simp at h
      · intro hfp
        have h2 := (update_missing_iff (rf.reset_step) l p fa).mpr
          ((missing_input_check_ok_true_iff l p).mpr hfp)
        rw [hr] at h2
        cases h2
  · intro h
    rw [get_reward_fst] at h
    rw [get_reward_snd]
    cases hr : ((rf.reset_step).update_internal_state_info l p fa).1 with
    | error e =>
      rw [hr] at h
      simp only at h
      have he : e = PyErr.missingInputError := by injection h
      subst he
      rw [update_missing_state (rf.reset_step) l p fa hr]
      simp [RewardFunction.reset_step]
    | ok u =>
      rw [hr] at h
      simp at h

/-- C2 (witness): with neither input supplied the amended theorem yields
the missing-input error and a zero accumulated reward at the raise. -/
theorem c2_missing_input_iff_both_falsy_witness :
    (rfScratchEx.get_reward Option.none Option.none false []).1 =
        Except.error PyErr.missingInputError ∧
      (rfScratchEx.get_reward Option.none Option.none false []).2.curr_reward = 0 := by
  have h := c2_missing_input_iff_both_falsy rfScratchEx Option.none Option.none false []
  have h1 : (rfScratchEx.get_reward Option.none Option.none false []).1 =
      Except.error PyErr.missingInputError := h.1.mpr (by decide)
  exact ⟨h1, h.2 h1⟩

/-- C3: the claim says the refresh phase publishes the breach flag as
(minimum distance ≤ safe distance) "including when the minimum distance
is 0".  On the code this fails: with `laser_scan = [0.0]` (and a
non-falsy point cloud so the input guard passes), `set_min_dist_laser`
publishes `min_dist_laser = 0`, but `set_safe_dist_breached` reads it
back through `get_internal_state_info`, whose truthiness test replaces
the falsy stored `0.0` with the default `None`; `None <= 0.3` then raises
`TypeError`, and `safe_dist_breached` is never published. -/
theorem c3_zero_min_dist_type_error :
    (rfScratchEx.update_internal_state_info (some [0]) (some [5]) false).1 =
        Except.error PyErr.badOperandError ∧
      Dict.get?
          (rfScratchEx.update_internal_state_info (some [0]) (some [5]) false).2.internal_state_info
          "min_dist_laser" = some (Value.rat 0) ∧
      Dict.get?
          (rfScratchEx.update_internal_state_info (some [0]) (some [5]) false).2.internal_state_info
          "safe_dist_breached" = Option.none :=
  ⟨rfl, rfl, rfl⟩

/-- C5: the spec's end-to-end example — `goal_distance` (weight `-0.1`,
not breach-exempt) then `safe_distance` (breach-exempt, `-5` on breach),
safe distance `0.3`, laser array `[0.2]` (minimum `0.2`), distance to
goal `2.0` — claims `get_reward` returns exactly `-5`.  On the code the
refresh does publish `safe_dist_breached = True`, but `get_reward` then
executes `self.calculate_reward(**kwargs)`; since `laser_scan` is bound
by `get_reward`'s own signature it can never be inside `kwargs`, so the
call raises `TypeError` (missing required positional argument
`laser_scan`) before any unit runs, and the accumulated reward is still
`0` — the example never returns `-5`. -/
theorem c5_example_raises_missing_argument :
    (RewardFunction.init registryEx specEx 1 (mkRat 3 10) (mkRat 3 10)).map
        (fun rf =>
          match rf.get_reward (some [mkRat 1 5]) Option.none false
              [("distance_to_goal", Value.rat 2)] with
          | (r, s) =>
            (r, s.curr_reward, Dict.get? s.internal_state_info "safe_dist_breached")) =
      Except.ok
        (Except.error (PyErr.missingArgumentError "calculate_reward" "laser_scan"),
         0, some (Value.bool true)) :=
  rfl

/-- C4: the per-step reset at the start of every `get_reward` call zeroes
the accumulated reward, empties the accumulated info mapping, and sets
every existing shared-scratch-state key to `None` without removing any
key; consequently the outcome of `get_reward` is independent of the
accumulated reward, the accumulated info and the scratch values left by
the previous step (only the fixed scratch key set matters), so nothing
published in step N survives into step N+1. -/
theorem c4_step_reset_no_leak (rf : RewardFunction) :
    (rf.reset_step).curr_reward = 0 ∧
    (rf.reset_step).info = [] ∧
    (rf.reset_step).internal_state_info =
      rf.internal_state_info.map (fun kv => (kv.1, Value.none)) ∧
    ∀ (r : ℚ) (i s : Dict),
      s.map Prod.fst = rf.internal_state_info.map Prod.fst →
      ∀ (l p : Option (List ℚ)) (fa : Bool) (ctx : Dict),
        RewardFunction.get_reward
            { rf with curr_reward := r, info := i, internal_state_info := s } l p fa ctx =
          rf.get_reward l p fa ctx := by
  refine ⟨rfl, rfl, rfl, ?_⟩
  intro r i s hs l p fa ctx
  have hmap : s.map (fun kv => (kv.1, Value.none)) =
      rf.internal_state_info.map (fun kv => (kv.1, Value.none)) := by
    have h2 := congrArg (List.map (fun k => (k, Value.none))) hs
    simpa [List.map_map, Function.comp] using h2
  have hreset :
      ({ rf with curr_reward := r, info := i, internal_state_info := s } :
          RewardFunction).reset_step = rf.reset_step := by
    simp [RewardFunction.reset_step, RewardFunction.reset_internal_state_info, hmap]
  unfold RewardFunction.get_reward
  rw [hreset]

/-- C4 (witness): a state differing from `rfOneUnit` only in a leftover
reward of `5`, a leftover info entry and nulled scratch values (same
keys) yields the same `get_reward` outcome. -/
theorem c4_step_reset_no_leak_witness :
    RewardFunction.get_reward
        { rfOneUnit with
            curr_reward := 5
            info := [("leak", Value.bool true)]
            internal_state_info :=
              [("min_dist_laser", Value.none), ("safe_dist_breached", Value.none)] }
        (some [mkRat 1 2]) Option.none false [] =
      rfOneUnit.get_reward (some [mkRat 1 2]) Option.none false [] :=
  (c4_step_reset_no_leak rfOneUnit).2.2.2 5 [("leak", Value.bool true)]
    [("min_dist_laser", Value.none), ("safe_dist_breached", Value.none)]
    (by decide) (some [mkRat 1 2]) Option.none false []

/-- C6: the goal-radius setter raises the domain `ValueError` and leaves
the stored goal radius (and the whole object) unchanged for every value
below the configured minimum, and stores the value and returns normally
for every value at or above the minimum. -/
theorem c6_goal_radius_setter (rf : RewardFunction) (v : ℚ) :
    (v < MIN_GOAL_RADIUS →
      rf.set_goal_radius v = (Except.error PyErr.goalRadiusError, rf)) ∧
    (MIN_GOAL_RADIUS ≤ v →
      rf.set_goal_radius v = (Except.ok (), { rf with goal_radius := v })) := by
  constructor
  · intro h
    simp [RewardFunction.set_goal_radius, h]
  · intro h
    simp [RewardFunction.set_goal_radius, not_lt.mpr h]

/-- C6 (witness): `0.05` is rejected with the state unchanged; `2` is
stored. -/
theorem c6_goal_radius_setter_witness :
    rfScratchEx.set_goal_radius (mkRat 1 20) =
        (Except.error PyErr.goalRadiusError, rfScratchEx) ∧
      rfScratchEx.set_goal_radius 2 =
        (Except.ok (), { rfScratchEx with goal_radius := 2 }) :=
  ⟨(c6_goal_radius_setter rfScratchEx (mkRat 1 20)).1 (by decide),
   (c6_goal_radius_setter rfScratchEx 2).2 (by decide)⟩

/-- C8: every episode-level `reset` call stores the freshly read global
goal radius through the validating setter — raising the domain error
(and resetting no unit) when it is below the minimum — and otherwise
calls `reset()` on every unit exactly once, in the fixed unit-list order
(the invocation trace is `[0, 1, …, n-1]`). -/
theorem c8_reset_episode (rf : RewardFunction) (g : Option ℚ) :
    (g.getD (mkRat 3 10) < MIN_GOAL_RADIUS →
      rf.reset g = (Except.error PyErr.goalRadiusError, rf, [])) ∧
    (MIN_GOAL_RADIUS ≤ g.getD (mkRat 3 10) →
      rf.reset g =
        (Except.ok (),
         { rf with
             goal_radius := g.getD (mkRat 3 10)
             reward_units := rf.reward_units.map
               (fun u => { u with ep_state := u.on_reset u.ep_state }) },
         List.range rf.reward_units.length)) := by
  constructor
  · intro h
    simp [RewardFunction.reset, RewardFunction.set_goal_radius, h]
  · intro h
    simp [RewardFunction.reset, RewardFunction.set_goal_radius, not_lt.mpr h]

/-- C8 (witness): a too-small global goal radius makes `reset` raise
without touching the unit; with no global parameter the default `0.3`
passes validation and the single unit is reset (trace `[0]`). -/
theorem c8_reset_episode_witness :
    rfOneUnit.reset (some (mkRat 1 20)) =
        (Except.error PyErr.goalRadiusError, rfOneUnit, []) ∧
      rfOneUnit.reset Option.none =
        (Except.ok (),
         { rfOneUnit with
             goal_radius := mkRat 3 10
             reward_units := rfOneUnit.reward_units.map
               (fun u => { u with ep_state := u.on_reset u.ep_state }) },
         List.range rfOneUnit.reward_units.length) :=
  ⟨(c8_reset_episode rfOneUnit (some (mkRat 1 20))).1 (by decide),
   (c8_reset_episode rfOneUnit Option.none).2 (by decide)⟩

/-- C9: within one step, when a later-evaluated unit publishes an info
entry under a key already published by an earlier unit, the later entry
overwrites the earlier one, and entries under distinct keys from earlier
units (or from before) are preserved unchanged — `add_info` is Python
`dict.update`, last write wins. -/
theorem c9_add_info_last_write_wins (rf : RewardFunction) (d1 d2 : Dict) (k : String)
    (h1 : (d1.map Prod.fst).Nodup) (h2 : (d2.map Prod.fst).Nodup) :
    Dict.get? ((rf.add_info d1).add_info d2).info k =
      match Dict.get? d2 k with
      | some v => some v
      | Option.none =>
        match Dict.get? d1 k with
        | some v => some v
        | Option.none => Dict.get? rf.info k := by
  show Dict.get? (Dict.updateAll (Dict.updateAll rf.info d1) d2) k = _
  rw [Dict.get?_updateAll _ _ _ h2, Dict.get?_updateAll _ _ _ h1]

/-- C9 (witness): the second unit's `dist` entry overwrites the first
unit's, while the first unit's `only1` entry is preserved. -/
theorem c9_add_info_last_write_wins_witness :
    Dict.get?
        ((rfScratchEx.add_info [("dist", Value.rat 2), ("only1", Value.bool true)]).add_info
          [("dist", Value.rat 7)]).info "dist" = some (Value.rat 7) ∧
      Dict.get?
        ((rfScratchEx.add_info [("dist", Value.rat 2), ("only1", Value.bool true)]).add_info
          [("dist", Value.rat 7)]).info "only1" = some (Value.bool true) :=
  ⟨(c9_add_info_last_write_wins rfScratchEx
      [("dist", Value.rat 2), ("only1", Value.bool true)] [("dist", Value.rat 7)] "dist"
      (by decide) (by decide)).trans rfl,
   (c9_add_info_last_write_wins rfScratchEx
      [("dist", Value.rat 2), ("only1", Value.bool true)] [("dist", Value.rat 7)] "only1"
      (by decide) (by decide)).trans rfl⟩

/-- C10: `get_internal_state_info` raises `KeyError` for a key that is
not present in the shared scratch state (never published since
construction), and for a present key returns the supplied default when
the stored value is falsy (`None`, `False`, `0`, empty string) and the
stored value itself when it is truthy. -/
theorem c10_scratch_getter (rf : RewardFunction) (k : String) (d : Value) :
    (Dict.get? rf.internal_state_info k = Option.none →
      rf.get_internal_state_info k d = Except.error (PyErr.keyError k)) ∧
    (∀ v, Dict.get? rf.internal_state_info k = some v → v.truthy = false →
      rf.get_internal_state_info k d = Except.ok d) ∧
    (∀ v, Dict.get? rf.internal_state_info k = some v → v.truthy = true →
      rf.get_internal_state_info k d = Except.ok v) := by
  refine ⟨?_, ?_, ?_⟩
  · intro h
    simp [RewardFunction.get_internal_state_info, h]
  · intro v hv ht
    simp [RewardFunction.get_internal_state_info, hv, ht]
  · intro v hv ht
    simp [RewardFunction.get_internal_state_info, hv, ht]

/-- C10 (witness): on `rfOneUnit`, an unpublished key raises `KeyError`,
the stored falsy flag `False` is replaced by the default `9`, and the
stored truthy minimum `1/2` is returned as-is. -/
theorem c10_scratch_getter_witness :
    rfOneUnit.get_internal_state_info "zzz" (Value.rat 9) =
        Except.error (PyErr.keyError "zzz") ∧
      rfOneUnit.get_internal_state_info "safe_dist_breached" (Value.rat 9) =
        Except.ok (Value.rat 9) ∧
      rfOneUnit.get_internal_state_info "min_dist_laser" (Value.rat 9) =
        Except.ok (Value.rat (mkRat 1 2)) :=
  ⟨(c10_scratch_getter rfOneUnit "zzz" (Value.rat 9)).1 (by decide),
   (c10_scratch_getter rfOneUnit "safe_dist_breached" (Value.rat 9)).2.1
     (Value.bool false) (by decide) (by decide),
   (c10_scratch_getter rfOneUnit "min_dist_laser" (Value.rat 9)).2.2
     (Value.rat (mkRat 1 2)) (by decide) (by decide)⟩

theorem setup_reward_function_ok (registry : Registry) (sl : List (String × Dict))
    (h : ∀ q ∈ sl, ∃ f u, RewardUnitFactory.instantiate registry q.1 = Except.ok f ∧
      f q.2 = Except.ok u) :
    ∃ us, setup_reward_function registry sl = Except.ok us ∧
      us.length = sl.length ∧
      ∀ (i : Nat) (hi : i < sl.length) (hi2 : i < us.length),
        ∃ f, RewardUnitFactory.instantiate registry (sl.get ⟨i, hi⟩).1 = Except.ok f ∧
          f (sl.get ⟨i, hi⟩).2 = Except.ok (us.get ⟨i, hi2⟩) := by
  induction sl with
  | nil => exact ⟨[], rfl, rfl, fun i hi _ => absurd hi (Nat.not_lt_zero i)⟩
  | cons hd t ih =>
    obtain ⟨nm, kw⟩ := hd
    obtain ⟨f, u, hf, hu⟩ := h (nm, kw) (List.mem_cons_self _ _)
    obtain ⟨us, hsetup, hlen, hidx⟩ := ih (fun q hq => h q (List.mem_cons_of_mem _ hq))
    refine ⟨u :: us, ?_, by simp [hlen], ?_⟩
    · simp [setup_reward_function, hf, hu, hsetup, Bind.bind, Except.bind, Pure.pure,
        Except.pure]
    · intro i hi hi2
      cases i with
      | zero => exact ⟨f, hf, hu⟩
      | succ n =>
        have hn : n < t.length := by simpa using hi
        have hn2 : n < us.length := by simpa using hi2
        obtain ⟨f2, hf2, hu2⟩ := hidx n hn hn2
        exact ⟨f2, hf2, hu2⟩

/-- C7: for any unit specification whose identifiers are all registered
and whose parameters are all accepted by their factories, construction
succeeds and produces a unit list with exactly one instantiated unit per
specification entry, in specification order, each the result of applying
the registered factory of its entry to that entry's declared parameters
(the back-reference to the owner is, per spec §9, realised by the narrow
effect interface through which each unit's evaluate publishes). -/
theorem c7_one_unit_per_entry (registry : Registry) (sl : List (String × Dict))
    (rr gr sd : ℚ)
    (h : ∀ q ∈ sl, ∃ f u, RewardUnitFactory.instantiate registry q.1 = Except.ok f ∧
      f q.2 = Except.ok u) :
    ∃ rf, RewardFunction.init registry sl rr gr sd = Except.ok rf ∧
      rf.robot_radius = rr ∧ rf.goal_radius = gr ∧ rf.safe_dist = sd ∧
      rf.curr_reward = 0 ∧ rf.info = [] ∧ rf.internal_state_info = [] ∧
      rf.safe_dist_breached_attr = Option.none ∧
      rf.reward_units.length = sl.length ∧
      ∀ (i : Nat) (hi : i < sl.length) (hi2 : i < rf.reward_units.length),
        ∃ f, RewardUnitFactory.instantiate registry (sl.get ⟨i, hi⟩).1 = Except.ok f ∧
          f (sl.get ⟨i, hi⟩).2 = Except.ok (rf.reward_units.get ⟨i, hi2⟩) := by
  obtain ⟨us, hsetup, hlen, hidx⟩ := setup_reward_function_ok registry sl h
  refine ⟨{ robot_radius := rr
            safe_dist := sd
            goal_radius := gr
            internal_state_info := []
            curr_reward := 0
            info := []
            reward_units := us
            safe_dist_breached_attr := Option.none },
    ?_, rfl, rfl, rfl, rfl, rfl, rfl, rfl, hlen, hidx⟩
  simp [RewardFunction.init, hsetup, Bind.bind, Except.bind, Pure.pure, Except.pure]

/-- C7 (witness): constructing from the example registry and the example
two-entry specification yields exactly one unit per entry, in order. -/
theorem c7_one_unit_per_entry_witness :
    ∃ rf, RewardFunction.init registryEx specEx 1 (mkRat 3 10) (mkRat 3 10) = Except.ok rf ∧
      rf.robot_radius = 1 ∧ rf.goal_radius = mkRat 3 10 ∧ rf.safe_dist = mkRat 3 10 ∧
      rf.curr_reward = 0 ∧ rf.info = [] ∧ rf.internal_state_info = [] ∧
      rf.safe_dist_breached_attr = Option.none ∧
      rf.reward_units.length = specEx.length ∧
      ∀ (i : Nat) (hi : i < specEx.length) (hi2 : i < rf.reward_units.length),
        ∃ f, RewardUnitFactory.instantiate registryEx (specEx.get ⟨i, hi⟩).1 = Except.ok f ∧
          f (specEx.get ⟨i, hi⟩).2 = Except.ok (rf.reward_units.get ⟨i, hi2⟩) :=
  c7_one_unit_per_entry registryEx specEx 1 (mkRat 3 10) (mkRat 3 10) (by
    intro q hq
    simp only [specEx, List.mem_cons, List.not_mem_nil, or_false] at hq
    rcases hq with rfl | rfl
    · exact ⟨goal_distance_factory, _, rfl, rfl⟩
    · exact ⟨safe_distance_factory, _, rfl, rfl⟩)
